import Mathlib

/-!
Shallow embedding of `browser_compatibility_validator.py` (the GBC-Camera-Emulator
browser-compatibility validator), restricted to its analysis core: the three
per-artifact analyzers (`analyze_html`, `analyze_css`, `analyze_js`), the shared
accumulating results state, and `generate_compatibility_report` plus the
`run_full_analysis` driver.

File reading is modelled by a map `FS : String → Option String` from paths to
file contents (`none` means the path does not exist, matching `Path.exists`
returning `False`); `os.path.getsize` is modelled as the UTF-8 byte size of the
content.  The optional BeautifulSoup parse (used only to add up to two extra
recommendations) is modelled as an injected capability
`Soup : String → Option (Bool × Bool)` giving, for a given document text,
whether the parse is available and the two boolean outcomes the Python loop
computes from it (does some `img` lack both `srcset` and `loading`; does some
`a` element lack a `role` attribute).

The specific regular expressions of the source are embedded as executable
character-list matchers.  Each matcher is equivalent to the corresponding
Python `re` pattern on the strings it is applied to: the patterns involved are
deterministic after greedy matching except for the bounded `[^)]*` / `[^>]*`
classes, whose backtracking is modelled by `findBefore`.
-/

namespace BrowserCompat

/-- ASCII whitespace characters: the characters stripped by Python's
`str.strip()` and matched by the regex class `\s` (for ASCII input). -/
def isPyWs (c : Char) : Bool :=
  c == ' ' || c == '\t' || c == '\n' || c == '\r' || c == Char.ofNat 11 || c == Char.ofNat 12

/-- Python `str.strip()`: remove whitespace from both ends. -/
def pyStrip (s : List Char) : List Char :=
  ((s.dropWhile isPyWs).reverse.dropWhile isPyWs).reverse

/-- Does the pattern occur at the very start of the text? (`str.startswith`,
and the entry test of a literal regex fragment.) -/
def beginsWith : List Char → List Char → Bool
  | [], _ => true
  | _ :: _, [] => false
  | p :: ps, c :: cs => p == c && beginsWith ps cs

/-- Case-insensitive `beginsWith` (ASCII case folding, as `re.IGNORECASE`
behaves on the ASCII-only patterns of the source). -/
def beginsWithCI : List Char → List Char → Bool
  | [], _ => true
  | _ :: _, [] => false
  | p :: ps, c :: cs => p.toLower == c.toLower && beginsWithCI ps cs

/-- `re.search` driver: does the position matcher `f` succeed at some start
position (i.e. on some suffix) of the text? -/
def searchAt (f : List Char → Bool) : List Char → Bool
  | [] => f []
  | c :: cs => f (c :: cs) || searchAt f cs

/-- Substring test, Python `sub in s` on character lists. -/
def containsSub (pat s : List Char) : Bool :=
  searchAt (fun t => beginsWith pat t) s

/-- Case-insensitive substring test (`re.search` of a literal with
`re.IGNORECASE`). -/
def containsSubCI (pat s : List Char) : Bool :=
  searchAt (fun t => beginsWithCI pat t) s

/-- Python `sub in s` on strings. -/
def pyIn (sub s : String) : Bool := containsSub sub.toList s.toList

/-- Consume a literal pattern, returning the rest of the text. -/
def lit (pat s : List Char) : Option (List Char) :=
  if beginsWith pat s then some (s.drop pat.length) else none

/-- Case-insensitive `lit`. -/
def litCI (pat s : List Char) : Option (List Char) :=
  if beginsWithCI pat s then some (s.drop pat.length) else none

/-- Consume `\s*`. -/
def skipWs (s : List Char) : List Char := s.dropWhile isPyWs

/-- Consume the character class consisting of a single or a double quote
(regex fragment, one quote character of either kind). -/
def quoteCh : List Char → Option (List Char)
  | c :: r => if c.toNat == 39 || c == '"' then some r else none
  | [] => none

/-- Backtracking search for a starred character class followed by a tail
matcher: `findBefore bad p s` holds when some split of `s` puts a (possibly
empty) run of characters not satisfying `bad` before a position where `p`
succeeds.  This is the semantics of regex fragments such as `[^)]*P` and
`[^>]*P`. -/
def findBefore (bad : Char → Bool) (p : List Char → Bool) : List Char → Bool
  | [] => p []
  | c :: cs => p (c :: cs) || (!bad c && findBefore bad p cs)

/-- First unit of the alternation (in order) matching at the start of the
text, returning its length; models a regex alternation of literals. -/
def findUnit (units : List (List Char)) (s : List Char) : Option Nat :=
  match units with
  | [] => none
  | u :: us => if beginsWith u s then some u.length else findUnit us s

/-- Counts the matches of `\d+U` (for an alternation `U` of digit-free unit
literals), exactly as `len(re.findall(...))` does: a match is a maximal digit
run immediately followed by one of the units.  `inRun` records whether the
previous character was a digit.  Because the units contain no digits,
scanning character by character (instead of skipping the consumed match) finds
exactly the same match set as the non-overlapping left-to-right `findall`. -/
def scanUnits (units : List (List Char)) : List Char → Bool → Nat
  | [], _ => 0
  | c :: cs, inRun =>
    if c.isDigit then scanUnits units cs true
    else
      (if inRun && (findUnit units (c :: cs)).isSome then 1 else 0) +
        scanUnits units cs false

/-- Number of `\d+px` matches in a stylesheet text (`fixed_units`). -/
def fixedUnitsOf (content : String) : Nat :=
  scanUnits ["px".toList] content.toList false

/-- Number of `\d+(?:em|rem|%|vh|vw)` matches in a stylesheet text
(`responsive_units`). -/
def responsiveUnitsOf (content : String) : Nat :=
  scanUnits ["em".toList, "rem".toList, "%".toList, "vh".toList, "vw".toList]
    content.toList false

/-- Scan to the first opening brace, returning the number of characters before
it and the rest after it; `none` when no opening brace occurs. -/
def untilBrace : List Char → Option (Nat × List Char)
  | [] => none
  | c :: cs =>
    if c == Char.ofNat 123 then some (0, cs)
    else
      match untilBrace cs with
      | some (n, r) => some (n + 1, r)
      | none => none

/-- Match of the media-query regex (an `@media` header up to and including its
opening brace) at the start of the text, returning the rest after the match:
the literal `@media`, at least one whitespace character, at least one further
character, then the first opening brace. -/
def mediaMatchAt (s : List Char) : Option (List Char) :=
  match lit "@media".toList s with
  | none => none
  | some [] => none
  | some (c :: r) =>
    if isPyWs c then
      match untilBrace r with
      | some (n, rest) => if 1 ≤ n then some rest else none
      | none => none
    else none

/-- Number of non-overlapping matches of the media-query regex, as
`len(re.findall(...))`: scan left to right, consuming each match.  The fuel
starts at the text length; every step consumes at least one character, so the
fuel never runs out. -/
def countMediaFuel : Nat → List Char → Nat
  | 0, _ => 0
  | fuel + 1, s =>
    match s with
    | [] => 0
    | c :: cs =>
      match mediaMatchAt (c :: cs) with
      | some rest => 1 + countMediaFuel fuel rest
      | none => countMediaFuel fuel cs

/-- Number of media-query constructs in a stylesheet text. -/
def countMedia (s : List Char) : Nat := countMediaFuel s.length s

/-! Section: The finding messages emitted by the analyzers (verbatim from the source) -/

def viewportMsg : String := "Missing viewport meta tag for responsive design"

def doctypeMsg : String := "Missing HTML5 doctype declaration"

def langMsg : String := "Missing language attribute on html element"

def videoMsg : String := "Missing 'playsinline' attribute on video element for iOS compatibility"

def ariaMsg : String := "Consider adding ARIA labels for better accessibility"

def imgMsg : String := "Consider adding 'srcset' or 'loading' attributes to images for better performance"

def roleMsg : String := "Links used as buttons should have role='button' attribute"

def mediaMsg : String := "No media queries found for responsive design"

def flexMsg : String := "Consider adding vendor prefixes for flexbox for better compatibility"

def transformsMsg : String := "Consider adding vendor prefixes for transforms/transitions"

def willChangeMsg : String := "Consider using 'will-change' property for animation performance"

def unitsMsg : String := "Consider using more responsive units (em, rem, %, vh, vw) instead of fixed pixels"

def mdMsg : String := "Missing feature detection for MediaDevices API"

def tryMsg : String := "Missing try/catch blocks for error handling"

def rafMsg : String := "Consider using requestAnimationFrame instead of setInterval for animations"

def gumMsg : String := "Consider adding feature detection for getUserMedia"

def canvasMsg : String := "Consider adding feature detection for Canvas API"

def touchMsg : String := "Consider adding feature detection for Touch Events"

def orientMsg : String := "Consider adding feature detection for Orientation"

def polyfillMsg : String := "Consider adding polyfills for broader browser support"

/-! Section: The data model: per-file metrics, the accumulating results state, the report -/

/-- The per-file metrics dictionaries stored in `results['file_analysis']`,
one constructor per artifact kind (their key sets differ in the source).
`fixed_vs_responsive` holds the string stored under the
fixed-versus-responsive ratio key. -/
inductive FileMetrics where
  | htmlM (file : String) (size : Nat) (issues_count : Nat)
  | cssM (file : String) (size : Nat) (media_queries : Nat) (fixed_vs_responsive : String)
  | jsM (file : String) (size : Nat)
      (has_feature_detection has_error_handling uses_animation_frame : Bool)
deriving DecidableEq

/-- The `results['responsive_design']` dictionary: keys are present only once
assigned, modelled with `Option` fields. -/
structure ResponsiveDesign where
  media_queries : Option Nat
  fixed_units : Option Nat
  responsive_units : Option Nat
deriving DecidableEq

/-- The accumulating `self.results` dictionary of the validator. -/
structure State where
  file_analysis : List (String × FileMetrics)
  compatibility_issues : List String
  responsive_design : ResponsiveDesign
  performance_concerns : List String
  recommendations : List String
deriving DecidableEq

/-- The state built by `BrowserCompatibilityValidator.__init__`. -/
def initState : State :=
  { file_analysis := []
    compatibility_issues := []
    responsive_design := { media_queries := none, fixed_units := none, responsive_units := none }
    performance_concerns := []
    recommendations := [] }

/-- Python dict assignment `d[k] = v` on an insertion-ordered association
list: replace in place when the key is present, append otherwise. -/
def dictInsert (k : String) (v : FileMetrics) :
    List (String × FileMetrics) → List (String × FileMetrics)
  | [] => [(k, v)]
  | (k', v') :: rest =>
    if k' == k then (k, v) :: rest else (k', v') :: dictInsert k v rest

/-- Python dict lookup `d.get(k)`. -/
def dictLookup (k : String) : List (String × FileMetrics) → Option FileMetrics
  | [] => none
  | (k', v') :: rest => if k' == k then some v' else dictLookup k rest

/-- `len([i for i in l if p in i])`: how many strings of `l` contain `p` as a
substring. -/
def countContaining (p : String) (l : List String) : Nat :=
  (l.filter (fun m => containsSub p.toList m.toList)).length

/-- A file system: path to content, `none` when the path does not exist. -/
abbrev FS := String → Option String

/-- The injected optional structured-markup parse (BeautifulSoup): for a
document text, `none` when the parser is unavailable, otherwise the pair
(some image lacks both `srcset` and `loading`, some anchor lacks `role`). -/
abbrev Soup := String → Option (Bool × Bool)

/-! Section: The markup analyzer -/

/-- Position match of `<meta\s+name=["\']viewport["\']` (case-insensitive). -/
def viewportAt (s : List Char) : Bool :=
  match litCI "<meta".toList s with
  | none => false
  | some [] => false
  | some (c :: r) =>
    isPyWs c &&
      (match litCI "name=".toList (skipWs r) with
       | none => false
       | some r2 =>
         match quoteCh r2 with
         | none => false
         | some r3 =>
           match litCI "viewport".toList r3 with
           | none => false
           | some r4 => (quoteCh r4).isSome)

/-- Tail of the language-attribute regex: `lang=["\'][a-z]{2}["\']`
(case-insensitive, so the letter class matches ASCII letters of either case). -/
def langTail (s : List Char) : Bool :=
  match litCI "lang=".toList s with
  | none => false
  | some r =>
    match quoteCh r with
    | none => false
    | some r2 =>
      match r2 with
      | c1 :: c2 :: r3 =>
        (97 ≤ c1.toLower.toNat && c1.toLower.toNat ≤ 122) &&
          (97 ≤ c2.toLower.toNat && c2.toLower.toNat ≤ 122) &&
          (quoteCh r3).isSome
      | _ => false

/-- Position match of `<html\s+[^>]*lang=["\'][a-z]{2}["\']`
(case-insensitive). -/
def langAt (s : List Char) : Bool :=
  match litCI "<html".toList s with
  | none => false
  | some [] => false
  | some (c :: r) => isPyWs c && findBefore (fun d => d == '>') langTail r

/-- The compatibility issues `analyze_html` appends for a readable document
text, in source order. -/
def htmlIssues (content : String) : List String :=
  let cs := content.toList
  (if searchAt viewportAt cs then [] else [viewportMsg]) ++
  (if beginsWith "<!DOCTYPE html>".toList (pyStrip cs) then [] else [doctypeMsg]) ++
  (if searchAt langAt cs then [] else [langMsg]) ++
  (if containsSub "<video".toList cs && !containsSub "playsinline".toList cs
    then [videoMsg] else [])

/-- The recommendations `analyze_html` appends for a readable document text,
in source order; the last two require the optional parse. -/
def htmlRecs (content : String) (soup : Option (Bool × Bool)) : List String :=
  (if containsSubCI "aria-label".toList content.toList then [] else [ariaMsg]) ++
  (match soup with
   | some (imgLacksAttrs, anchorLacksRole) =>
     (if imgLacksAttrs then [imgMsg] else []) ++
       (if anchorLacksRole then [roleMsg] else [])
   | none => [])

/-- `analyze_html`: returns the Python method's boolean result together with
the updated results state. -/
def analyze_html (fs : FS) (soup : Soup) (file_path : String) (st : State) :
    Bool × State :=
  match fs file_path with
  | none =>
    (false,
     { st with
        compatibility_issues :=
          st.compatibility_issues ++ ["HTML file not found: " ++ file_path] })
  | some content =>
    let issues := st.compatibility_issues ++ htmlIssues content
    let recs := st.recommendations ++ htmlRecs content (soup content)
    let fa :=
      dictInsert "html"
        (FileMetrics.htmlM file_path content.utf8ByteSize
          (countContaining file_path issues))
        st.file_analysis
    (true,
     { st with
        compatibility_issues := issues
        recommendations := recs
        file_analysis := fa })

/-! Section: The style analyzer -/

/-- The recommendations `analyze_css` appends for a readable stylesheet text,
in source order. -/
def cssRecs (content : String) : List String :=
  (if pyIn "display: flex" content &&
      !(pyIn "-webkit-flex" content) && !(pyIn "-ms-flexbox" content)
    then [flexMsg] else []) ++
  (if (pyIn "transform:" content && !(pyIn "-webkit-transform:" content)) ||
      (pyIn "transition:" content && !(pyIn "-webkit-transition:" content))
    then [transformsMsg] else []) ++
  (if (pyIn "animation:" content || pyIn "transition:" content) &&
      !(pyIn "will-change:" content)
    then [willChangeMsg] else []) ++
  (if fixedUnitsOf content > responsiveUnitsOf content then [unitsMsg] else [])

/-- `analyze_css`: returns the Python method's boolean result together with
the updated results state. -/
def analyze_css (fs : FS) (file_path : String) (st : State) : Bool × State :=
  match fs file_path with
  | none =>
    (false,
     { st with
        compatibility_issues :=
          st.compatibility_issues ++ ["CSS file not found: " ++ file_path] })
  | some content =>
    let mq := countMedia content.toList
    let issues :=
      st.compatibility_issues ++ (if mq == 0 then [mediaMsg] else [])
    let rd0 :=
      if mq == 0 then st.responsive_design
      else { st.responsive_design with media_queries := some mq }
    let recs := st.recommendations ++ cssRecs content
    let rd :=
      { rd0 with
          fixed_units := some (fixedUnitsOf content)
          responsive_units := some (responsiveUnitsOf content) }
    let fa :=
      dictInsert "css"
        (FileMetrics.cssM file_path content.utf8ByteSize mq
          (toString (fixedUnitsOf content) ++ ":" ++ toString (responsiveUnitsOf content)))
        st.file_analysis
    (true,
     { st with
        compatibility_issues := issues
        responsive_design := rd
        recommendations := recs
        file_analysis := fa })

/-! Section: The script analyzer -/

/-- Position match of `if\s*\(\s*navigator\.mediaDevices`. -/
def mdGuardAt (s : List Char) : Bool :=
  match lit "if".toList s with
  | none => false
  | some r =>
    match skipWs r with
    | c :: r2 => c == '(' && beginsWith "navigator.mediaDevices".toList (skipWs r2)
    | [] => false

/-- Search for the MediaDevices feature-detection guard. -/
def md_guard (content : String) : Bool := searchAt mdGuardAt content.toList

/-- Use of the MediaDevices API: the literal substring test of the source. -/
def md_used (content : String) : Bool := pyIn "navigator.mediaDevices" content

/-- Position match of `if\s*\([^)]*P` for a tail matcher `P` (the per-feature
guard regexes the source builds from the first pattern alternative). -/
def guardAt (inner : List Char → Bool) (s : List Char) : Bool :=
  match lit "if".toList s with
  | none => false
  | some r =>
    match skipWs r with
    | c :: r2 => c == '(' && findBefore (fun d => d == ')') inner r2
    | [] => false

/-- Position match of `getContext\s*\(\s*[\'"]2d[\'"]\s*\)`. -/
def canvasAt (s : List Char) : Bool :=
  match lit "getContext".toList s with
  | none => false
  | some r =>
    match skipWs r with
    | c :: r1 =>
      c == '(' &&
        (match quoteCh (skipWs r1) with
         | none => false
         | some r2 =>
           match lit "2d".toList r2 with
           | none => false
           | some r3 =>
             match quoteCh r3 with
             | none => false
             | some r4 =>
               match skipWs r4 with
               | d :: _ => d == ')'
               | [] => false)
    | [] => false

/-- Position match of `window\.matchMedia\s*\(\s*[\'"]orientation`. -/
def matchMediaOrientAt (s : List Char) : Bool :=
  match lit "window.matchMedia".toList s with
  | none => false
  | some r =>
    match skipWs r with
    | c :: r1 =>
      c == '(' &&
        (match quoteCh (skipWs r1) with
         | none => false
         | some r2 => beginsWith "orientation".toList r2)
    | [] => false

/-- `navigator\.getUserMedia|navigator\.mediaDevices\.getUserMedia` appears. -/
def getUserMedia_used (content : String) : Bool :=
  pyIn "navigator.getUserMedia" content || pyIn "navigator.mediaDevices.getUserMedia" content

/-- The source's guard check for getUserMedia: the first alternative
`navigator\.getUserMedia` inside `if\s*\([^)]*`. -/
def getUserMedia_guard (content : String) : Bool :=
  searchAt (guardAt (fun t => beginsWith "navigator.getUserMedia".toList t)) content.toList

/-- The 2D-context pattern appears. -/
def canvas_used (content : String) : Bool := searchAt canvasAt content.toList

/-- The source's guard check for the 2D context (its pattern has a single
alternative). -/
def canvas_guard (content : String) : Bool :=
  searchAt (guardAt canvasAt) content.toList

/-- `touchstart|touchmove|touchend` appears. -/
def touch_used (content : String) : Bool :=
  pyIn "touchstart" content || pyIn "touchmove" content || pyIn "touchend" content

/-- The source's guard check for touch events: only the first alternative
`touchstart`. -/
def touch_guard (content : String) : Bool :=
  searchAt (guardAt (fun t => beginsWith "touchstart".toList t)) content.toList

/-- `orientation|window\.matchMedia\s*\(\s*[\'"]orientation` appears. -/
def orientation_used (content : String) : Bool :=
  pyIn "orientation" content || searchAt matchMediaOrientAt content.toList

/-- The source's guard check for the orientation API: only the first
alternative `orientation`. -/
def orientation_guard (content : String) : Bool :=
  searchAt (guardAt (fun t => beginsWith "orientation".toList t)) content.toList

/-- The compatibility issues `analyze_js` appends for a readable script text,
in source order. -/
def jsIssues (content : String) : List String :=
  (if md_used content && !md_guard content then [mdMsg] else []) ++
  (if !(pyIn "try" content) || !(pyIn "catch" content) then [tryMsg] else [])

/-- The performance concerns `analyze_js` appends. -/
def jsPerf (content : String) : List String :=
  if pyIn "setInterval(" content && !(pyIn "requestAnimationFrame" content)
    then [rafMsg] else []

/-- The recommendations `analyze_js` appends, in source order: the four
capability checks of the `compatibility_patterns` loop, then the polyfill
check. -/
def jsRecs (content : String) : List String :=
  (if getUserMedia_used content && !getUserMedia_guard content then [gumMsg] else []) ++
  (if canvas_used content && !canvas_guard content then [canvasMsg] else []) ++
  (if touch_used content && !touch_guard content then [touchMsg] else []) ++
  (if orientation_used content && !orientation_guard content then [orientMsg] else []) ++
  (if pyIn "polyfill" content.toLower then [] else [polyfillMsg])

/-- `analyze_js`: returns the Python method's boolean result together with the
updated results state. -/
def analyze_js (fs : FS) (file_path : String) (st : State) : Bool × State :=
  match fs file_path with
  | none =>
    (false,
     { st with
        compatibility_issues :=
          st.compatibility_issues ++ ["JavaScript file not found: " ++ file_path] })
  | some content =>
    let issues := st.compatibility_issues ++ jsIssues content
    let perf := st.performance_concerns ++ jsPerf content
    let recs := st.recommendations ++ jsRecs content
    let fa :=
      dictInsert "js"
        (FileMetrics.jsM file_path content.utf8ByteSize
          (pyIn "if (navigator.mediaDevices" content)
          (pyIn "try" content && pyIn "catch" content)
          (pyIn "requestAnimationFrame" content))
        st.file_analysis
    (true,
     { st with
        compatibility_issues := issues
        performance_concerns := perf
        recommendations := recs
        file_analysis := fa })

/-! Section: The report aggregator and the run driver -/

/-- The `summary` block of the report. -/
structure Summary where
  files_analyzed : Nat
  issues_found : Nat
  recommendations : Nat
deriving DecidableEq

/-- The report value built by `generate_compatibility_report`. -/
structure Report where
  summary : Summary
  compatibility_issues : List String
  responsive_design : ResponsiveDesign
  performance_concerns : List String
  recommendations : List String
  file_analysis : List (String × FileMetrics)
  overall_assessment : String
deriving DecidableEq

/-- `generate_compatibility_report`: a snapshot of the state plus the overall
assessment computed from the number of compatibility issues. -/
def generate_compatibility_report (st : State) : Report :=
  { summary :=
      { files_analyzed := st.file_analysis.length
        issues_found := st.compatibility_issues.length
        recommendations := st.recommendations.length }
    compatibility_issues := st.compatibility_issues
    responsive_design := st.responsive_design
    performance_concerns := st.performance_concerns
    recommendations := st.recommendations
    file_analysis := st.file_analysis
    overall_assessment :=
      if st.compatibility_issues.length = 0 then
        "Excellent - No compatibility issues detected"
      else if st.compatibility_issues.length ≤ 2 then
        "Good - Minor compatibility issues detected"
      else if st.compatibility_issues.length ≤ 5 then
        "Fair - Several compatibility issues detected"
      else
        "Poor - Multiple compatibility issues detected" }

/-- A call of `generate_compatibility_report` with the state threaded
explicitly, as the stateful method call it is in Python: the method only
reads `self.results`, so the state passes through. -/
def generate_report_call (st : State) : Report × State :=
  (generate_compatibility_report st, st)

/-- The sequence of analyzer invocations performed by `run_full_analysis`. -/
def run_full_analysis (fs : FS) (soup : Soup) (st : State) : State :=
  let st1 := (analyze_html fs soup "index.html" st).2
  let st2 := (analyze_html fs soup "enhanced_index.html" st1).2
  let st3 := (analyze_css fs "styles.css" st2).2
  let st4 := (analyze_css fs "enhanced_styles.css" st3).2
  let st5 := (analyze_js fs "script.js" st4).2
  let st6 := (analyze_js fs "enhanced_script.js" st5).2
  st6

/-- The report produced by a full run (`run_full_analysis` then
`save_report`'s call to `generate_compatibility_report`) from a fresh
validator. -/
def full_report (fs : FS) (soup : Soup) : Report :=
  generate_compatibility_report (run_full_analysis fs soup initState)

/-- One analyzer invocation, for reasoning about arbitrary call sequences. -/
inductive Call where
  | html (p : String)
  | css (p : String)
  | js (p : String)

/-- Apply one analyzer invocation to the state. -/
def runCall (fs : FS) (soup : Soup) (st : State) : Call → State
  | Call.html p => (analyze_html fs soup p st).2
  | Call.css p => (analyze_css fs p st).2
  | Call.js p => (analyze_js fs p st).2

/-- Apply a sequence of analyzer invocations to the state. -/
def runCalls (fs : FS) (soup : Soup) (calls : List Call) (st : State) : State :=
  calls.foldl (fun s c => runCall fs soup s c) st

/-- The keys of a `file_analysis` dictionary. -/
def faKeys (d : List (String × FileMetrics)) : List String := d.map Prod.fst

/-- Well-formedness of `file_analysis`: distinct keys, all among the three
artifact kinds. -/
def goodFA (d : List (String × FileMetrics)) : Prop :=
  (faKeys d).Nodup ∧ ∀ a ∈ faKeys d, a = "html" ∨ a = "css" ∨ a = "js"

/-- Follows the spec's words for claim C5: a conditional guard referencing the
touch-events signature pattern — any of its alternatives `touchstart`,
`touchmove`, `touchend` inside `if\s*\([^)]*` — appears in the text.  (The
source instead checks only the first alternative, `touchstart`.) -/
def spec_touch_guard (content : String) : Bool :=
  searchAt
    (guardAt (fun t =>
      beginsWith "touchstart".toList t || beginsWith "touchmove".toList t ||
        beginsWith "touchend".toList t))
    content.toList

/-! Section: Concrete fixtures used by counterexamples and witnesses -/

/-- A file system with no files at all. -/
def fsEmpty : FS := fun _ => none

/-- The absent structured-markup parser. -/
def soupNone : Soup := fun _ => none

/-- A file system whose only file is an empty `index.html`. -/
def fsHtmlEmptyDoc : FS := fun p => if p == "index.html" then some "" else none

/-- A script that guards a touch-events use with a conditional referencing
`touchmove`. -/
def jsTouch : String := "if(touchmove)"

/-- A file system whose only file is `script.js` containing `jsTouch`. -/
def fsJsTouch : FS := fun p => if p == "script.js" then some jsTouch else none

/-- A script with a whitespace-variant MediaDevices guard: the regex guard
matches but the literal `if (navigator.mediaDevices` does not occur. -/
def jsSpacedGuard : String := "if( navigator.mediaDevices )"

/-- A file system whose only file is `script.js` containing `jsSpacedGuard`. -/
def fsJsSpaced : FS := fun p => if p == "script.js" then some jsSpacedGuard else none

/-- A stylesheet text used to check the unit counters. -/
def cssSample : String := "10px 20px 1em"

/-- A file system whose only file is `styles.css` containing `cssSample`. -/
def fsCssSample : FS := fun p => if p == "styles.css" then some cssSample else none

/-- A markup text that does not start with the HTML5 doctype. -/
def htmlNoDoctype : String := "<p>hello</p>"

/-- A file system whose only file is `index.html` containing `htmlNoDoctype`. -/
def fsHtmlNoDoctype : FS := fun p => if p == "index.html" then some htmlNoDoctype else none

/-- Two markup files, for the overwrite behaviour of `file_analysis`. -/
def fsTwoHtml : FS :=
  fun p => if p == "a.html" then some "" else if p == "b.html" then some "x" else none

/-- A file system differing from `fsEmpty` only on a path the run driver never
reads. -/
def fsOtherFile : FS := fun p => if p == "other.txt" then some "x" else none

/-- A state with `n` accumulated compatibility issues. -/
def stIssues (n : Nat) : State :=
  { initState with compatibility_issues := List.replicate n "issue" }

/-! Section: Helper lemmas about the scanning primitives and the dictionary -/

theorem beginsWith_self : ∀ l : List Char, beginsWith l l = true := by
  intro l
  induction l with
  | nil => rfl
  | cons a as ih => simp [beginsWith, ih]

theorem beginsWith_append (p q : List Char) :
    ∀ s : List Char, beginsWith (p ++ q) s = (beginsWith p s && beginsWith q (s.drop p.length)) := by
  induction p with
  | nil => intro s; simp [beginsWith]
  | cons a ps ih =>
    intro s
    cases s with
    | nil => simp [beginsWith]
    | cons c cs => simp [beginsWith, ih, Bool.and_assoc]

theorem beginsWith_cons {a : Char} {ps s : List Char} (h : beginsWith (a :: ps) s = true) :
    ∃ t, s = a :: t ∧ beginsWith ps t = true := by
  cases s with
  | nil => simp [beginsWith] at h
  | cons c cs =>
    simp only [beginsWith, Bool.and_eq_true, beq_iff_eq] at h
    exact ⟨cs, by rw [h.1], h.2⟩

theorem searchAt_iff (f : List Char → Bool) :
    ∀ s : List Char, searchAt f s = true ↔ ∃ n, f (s.drop n) = true := by
  intro s
  induction s with
  | nil =>
    constructor
    · intro h; exact ⟨0, h⟩
    · rintro ⟨n, hn⟩; rw [List.drop_nil] at hn; exact hn
  | cons c cs ih =>
    simp only [searchAt, Bool.or_eq_true, ih]
    constructor
    · rintro (h | ⟨n, hn⟩)
      · exact ⟨0, h⟩
      · exact ⟨n + 1, hn⟩
    · rintro ⟨n, hn⟩
      cases n with
      | zero => exact Or.inl hn
      | succ m => exact Or.inr ⟨m, hn⟩

theorem containsSub_append_self (pre pat : List Char) :
    containsSub pat (pre ++ pat) = true := by
  unfold containsSub
  rw [searchAt_iff]
  exact ⟨pre.length, by rw [List.drop_left]; exact beginsWith_self pat⟩

theorem mem_if_singleton {c : Prop} [Decidable c] {a m : String} :
    (a ∈ if c then [m] else ([] : List String)) ↔ (c ∧ a = m) := by
  split <;> simp_all

theorem mem_if_nil_singleton {c : Prop} [Decidable c] {a m : String} :
    (a ∈ if c then ([] : List String) else [m]) ↔ (¬c ∧ a = m) := by
  split <;> simp_all

theorem count_if_singleton_nil {c : Prop} [Decidable c] {a m : String} (h : a ≠ m) :
    List.count a (if c then [m] else ([] : List String)) = 0 := by
  split <;> simp [List.count_cons, Ne.symm h]

theorem count_if_nil_singleton {c : Prop} [Decidable c] {a m : String} (h : a ≠ m) :
    List.count a (if c then ([] : List String) else [m]) = 0 := by
  split <;> simp [List.count_cons, Ne.symm h]

theorem count_if_nil_self {c : Prop} [Decidable c] (a : String) :
    List.count a (if c then ([] : List String) else [a]) = if c then 0 else 1 := by
  split <;> simp [List.count_cons]

theorem dictLookup_dictInsert_self (k : String) (v : FileMetrics) :
    ∀ d : List (String × FileMetrics), dictLookup k (dictInsert k v d) = some v := by
  intro d
  induction d with
  | nil => simp [dictInsert, dictLookup]
  | cons kv rest ih =>
    obtain ⟨k', v'⟩ := kv
    by_cases h : k' == k
    · simp [dictInsert, dictLookup, h]
    · simp only [dictInsert, dictLookup, h]
      simp only [Bool.false_eq_true, if_false, dictLookup, h, ih]

theorem mem_faKeys_dictInsert {a k : String} {v : FileMetrics} :
    ∀ {d : List (String × FileMetrics)},
      a ∈ faKeys (dictInsert k v d) ↔ (a = k ∨ a ∈ faKeys d) := by
  intro d
  induction d with
  | nil => simp [dictInsert, faKeys]
  | cons kv rest ih =>
    obtain ⟨k', v'⟩ := kv
    by_cases h : k' == k
    · have hk : k' = k := by simpa using h
      subst hk
      simp [dictInsert, faKeys]
    · simp only [dictInsert, h, Bool.false_eq_true, if_false]
      simp only [faKeys, List.map_cons, List.mem_cons] at ih ⊢
      rw [ih]
      tauto

theorem nodup_faKeys_dictInsert {k : String} {v : FileMetrics} :
    ∀ {d : List (String × FileMetrics)}, (faKeys d).Nodup →
      (faKeys (dictInsert k v d)).Nodup := by
  intro d
  induction d with
  | nil => intro _; simp [dictInsert, faKeys]
  | cons kv rest ih =>
    obtain ⟨k', v'⟩ := kv
    intro hnd
    simp only [faKeys, List.map_cons, List.nodup_cons] at hnd
    by_cases h : k' == k
    · have hk : k' = k := by simpa using h
      subst hk
      have hins : dictInsert k' v ((k', v') :: rest) = (k', v) :: rest := by
        simp [dictInsert]
      rw [hins]
      simp only [faKeys, List.map_cons, List.nodup_cons]
      exact ⟨hnd.1, hnd.2⟩
    · have hk : ¬k' = k := by simpa using h
      simp only [dictInsert, h, Bool.false_eq_true, if_false, faKeys, List.map_cons,
        List.nodup_cons]
      refine ⟨?_, ih hnd.2⟩
      rw [show (dictInsert k v rest).map Prod.fst = faKeys (dictInsert k v rest) from rfl,
        mem_faKeys_dictInsert]
      rintro (rfl | hmem)
      · exact hk rfl
      · exact hnd.1 hmem

theorem dictInsert_length_of_mem {k : String} {v : FileMetrics} :
    ∀ {d : List (String × FileMetrics)}, k ∈ faKeys d →
      (dictInsert k v d).length = d.length := by
  intro d
  induction d with
  | nil => intro h; simp [faKeys] at h
  | cons kv rest ih =>
    obtain ⟨k', v'⟩ := kv
    intro hmem
    by_cases h : k' == k
    · simp [dictInsert, h]
    · have hk : ¬k' = k := by simpa using h
      simp only [faKeys, List.map_cons, List.mem_cons] at hmem
      rcases hmem with rfl | hmem
      · exact absurd rfl hk
      · simp only [dictInsert, h, Bool.false_eq_true, if_false, List.length_cons]
        rw [ih hmem]

theorem goodFA_dictInsert {d : List (String × FileMetrics)} {k : String}
    (hk : k = "html" ∨ k = "css" ∨ k = "js") (v : FileMetrics) (h : goodFA d) :
    goodFA (dictInsert k v d) := by
  refine ⟨nodup_faKeys_dictInsert h.1, ?_⟩
  intro a ha
  rw [mem_faKeys_dictInsert] at ha
  rcases ha with rfl | ha
  · exact hk
  · exact h.2 a ha

theorem goodFA_length {d : List (String × FileMetrics)} (h : goodFA d) :
    d.length ≤ 3 := by
  have hlen : (faKeys d).length = d.length := by simp [faKeys]
  rw [← hlen]
  have hcard : (faKeys d).toFinset.card = (faKeys d).length :=
    List.toFinset_card_of_nodup h.1
  rw [← hcard]
  have hsub : (faKeys d).toFinset ⊆ ({"html", "css", "js"} : Finset String) := by
    intro a ha
    rw [List.mem_toFinset] at ha
    rcases h.2 a ha with rfl | rfl | rfl <;> simp
  calc (faKeys d).toFinset.card ≤ ({"html", "css", "js"} : Finset String).card :=
        Finset.card_le_card hsub
    _ ≤ 3 := by decide

/-! Section: Congruence of the analyzers in the file system -/

theorem analyze_html_congr (fs1 fs2 : FS) (soup : Soup) (p : String) (st : State)
    (h : fs1 p = fs2 p) : analyze_html fs1 soup p st = analyze_html fs2 soup p st := by
  unfold analyze_html
  rw [h]

theorem analyze_css_congr (fs1 fs2 : FS) (p : String) (st : State)
    (h : fs1 p = fs2 p) : analyze_css fs1 p st = analyze_css fs2 p st := by
  unfold analyze_css
  rw [h]

theorem analyze_js_congr (fs1 fs2 : FS) (p : String) (st : State)
    (h : fs1 p = fs2 p) : analyze_js fs1 p st = analyze_js fs2 p st := by
  unfold analyze_js
  rw [h]

/-! Section: Claim C1 -/

/-- C1: the overall assessment is a function of the number of accumulated
`CompatibilityIssue` findings alone (two states with equally many issues get
the same assessment, whatever their recommendations and performance concerns
hold), and the tier boundaries are exact: 0 issues give the "Excellent"
assessment, 1–2 "Good", 3–5 "Fair", more than 5 "Poor". -/
theorem c1_assessment_tiers :
    (∀ st1 st2 : State,
        st1.compatibility_issues.length = st2.compatibility_issues.length →
        (generate_compatibility_report st1).overall_assessment =
          (generate_compatibility_report st2).overall_assessment) ∧
    (∀ st : State, st.compatibility_issues.length = 0 →
        (generate_compatibility_report st).overall_assessment =
          "Excellent - No compatibility issues detected") ∧
    (∀ st : State, 1 ≤ st.compatibility_issues.length →
        st.compatibility_issues.length ≤ 2 →
        (generate_compatibility_report st).overall_assessment =
          "Good - Minor compatibility issues detected") ∧
    (∀ st : State, 3 ≤ st.compatibility_issues.length →
        st.compatibility_issues.length ≤ 5 →
        (generate_compatibility_report st).overall_assessment =
          "Fair - Several compatibility issues detected") ∧
    (∀ st : State, 5 < st.compatibility_issues.length →
        (generate_compatibility_report st).overall_assessment =
          "Poor - Multiple compatibility issues detected") := by
  refine ⟨?_, ?_, ?_, ?_, ?_⟩
  · intro st1 st2 h
    simp only [generate_compatibility_report]
    rw [h]
  · intro st h
    simp [generate_compatibility_report, h]
  · intro st h1 h2
    simp only [generate_compatibility_report]
    rw [if_neg (by omega), if_pos (by omega)]
  · intro st h1 h2
    simp only [generate_compatibility_report]
    rw [if_neg (by omega), if_neg (by omega), if_pos (by omega)]
  · intro st h
    simp only [generate_compatibility_report]
    rw [if_neg (by omega), if_neg (by omega), if_neg (by omega)]

/-- Witness for C1: states holding exactly 0, 2, 3, 5 and 6 issues are
assessed Excellent, Good, Fair, Fair and Poor respectively. -/
theorem c1_assessment_tiers_witness :
    (generate_compatibility_report (stIssues 0)).overall_assessment =
      "Excellent - No compatibility issues detected" ∧
    (generate_compatibility_report (stIssues 2)).overall_assessment =
      "Good - Minor compatibility issues detected" ∧
    (generate_compatibility_report (stIssues 3)).overall_assessment =
      "Fair - Several compatibility issues detected" ∧
    (generate_compatibility_report (stIssues 5)).overall_assessment =
      "Fair - Several compatibility issues detected" ∧
    (generate_compatibility_report (stIssues 6)).overall_assessment =
      "Poor - Multiple compatibility issues detected" :=
  ⟨c1_assessment_tiers.2.1 (stIssues 0) (by decide),
   c1_assessment_tiers.2.2.1 (stIssues 2) (by decide) (by decide),
   c1_assessment_tiers.2.2.2.1 (stIssues 3) (by decide) (by decide),
   c1_assessment_tiers.2.2.2.1 (stIssues 5) (by decide) (by decide),
   c1_assessment_tiers.2.2.2.2 (stIssues 6) (by decide)⟩

/-! Section: Claim C2 -/

/-- C2 counterexample: analyzing the nonexistent `index.html` on an empty file
system from a fresh state yields the single not-found issue and a `False`
return — but the report's `file_analysis` is empty: the artifact does not
appear in it at all, so it is not "marked not analyzed" there, contrary to the
claim's final conjunct. -/
theorem c2_not_analyzed_counterexample :
    (analyze_html fsEmpty soupNone "index.html" initState).1 = false ∧
    (analyze_html fsEmpty soupNone "index.html" initState).2.compatibility_issues =
      ["HTML file not found: index.html"] ∧
    (generate_compatibility_report
        (analyze_html fsEmpty soupNone "index.html" initState).2).file_analysis = [] ∧
    dictLookup "html"
      (generate_compatibility_report
        (analyze_html fsEmpty soupNone "index.html" initState).2).file_analysis = none :=
  ⟨rfl, rfl, rfl, rfl⟩

/-- C2 as amended: for every artifact path that does not exist, each analyzer
returns `false` instead of raising, appends exactly one `CompatibilityIssue`
whose message contains the filename, and leaves `file_analysis` unchanged —
the artifact gains no entry there (no "not analyzed" marker exists). -/
theorem c2_missing_file :
    ∀ (fs : FS) (soup : Soup) (p : String) (st : State),
      fs p = none →
      (analyze_html fs soup p st).1 = false ∧
      (analyze_html fs soup p st).2.compatibility_issues =
        st.compatibility_issues ++ ["HTML file not found: " ++ p] ∧
      containsSub p.toList ("HTML file not found: " ++ p).toList = true ∧
      (analyze_html fs soup p st).2.file_analysis = st.file_analysis ∧
      (analyze_css fs p st).1 = false ∧
      (analyze_css fs p st).2.compatibility_issues =
        st.compatibility_issues ++ ["CSS file not found: " ++ p] ∧
      containsSub p.toList ("CSS file not found: " ++ p).toList = true ∧
      (analyze_css fs p st).2.file_analysis = st.file_analysis ∧
      (analyze_js fs p st).1 = false ∧
      (analyze_js fs p st).2.compatibility_issues =
        st.compatibility_issues ++ ["JavaScript file not found: " ++ p] ∧
      containsSub p.toList ("JavaScript file not found: " ++ p).toList = true ∧
      (analyze_js fs p st).2.file_analysis = st.file_analysis ∧
      (generate_compatibility_report (analyze_html fs soup p st).2).file_analysis =
        st.file_analysis := by
  intro fs soup p st h
  have hsub : ∀ pre : String, containsSub p.toList (pre ++ p).toList = true := by
    intro pre
    have : (pre ++ p).toList = pre.toList ++ p.toList := by
      simp [String.toList, String.data_append]
    rw [this]
    exact containsSub_append_self _ _
  refine ⟨?_, ?_, hsub _, ?_, ?_, ?_, hsub _, ?_, ?_, ?_, hsub _, ?_, ?_⟩ <;>
    simp [analyze_html, analyze_css, analyze_js, generate_compatibility_report, h]

/-- Witness for C2 (amended): instantiated on the empty file system at
`index.html` from a fresh state. -/
theorem c2_missing_file_witness :
    (analyze_html fsEmpty soupNone "index.html" initState).1 = false ∧
    (analyze_html fsEmpty soupNone "index.html" initState).2.compatibility_issues =
      initState.compatibility_issues ++ ["HTML file not found: " ++ "index.html"] ∧
    containsSub "index.html".toList ("HTML file not found: " ++ "index.html").toList = true ∧
    (analyze_html fsEmpty soupNone "index.html" initState).2.file_analysis =
      initState.file_analysis ∧
    (analyze_css fsEmpty "index.html" initState).1 = false ∧
    (analyze_css fsEmpty "index.html" initState).2.compatibility_issues =
      initState.compatibility_issues ++ ["CSS file not found: " ++ "index.html"] ∧
    containsSub "index.html".toList ("CSS file not found: " ++ "index.html").toList = true ∧
    (analyze_css fsEmpty "index.html" initState).2.file_analysis =
      initState.file_analysis ∧
    (analyze_js fsEmpty "index.html" initState).1 = false ∧
    (analyze_js fsEmpty "index.html" initState).2.compatibility_issues =
      initState.compatibility_issues ++ ["JavaScript file not found: " ++ "index.html"] ∧
    containsSub "index.html".toList ("JavaScript file not found: " ++ "index.html").toList = true ∧
    (analyze_js fsEmpty "index.html" initState).2.file_analysis =
      initState.file_analysis ∧
    (generate_compatibility_report
        (analyze_html fsEmpty soupNone "index.html" initState).2).file_analysis =
      initState.file_analysis :=
  c2_missing_file fsEmpty soupNone "index.html" initState rfl

/-! Section: Claim C6 -/

/-- C6 counterexample: the empty `index.html` makes the markup analyzer append
three findings attributed to it (missing viewport, doctype and language), yet
the recorded `issues_count` metric is 0, because the source counts the
accumulated issue messages that contain the file path as a substring and none
of the per-content messages mention the filename. -/
theorem c6_issues_count_counterexample :
    (analyze_html fsHtmlEmptyDoc soupNone "index.html" initState).2.compatibility_issues =
      [viewportMsg, doctypeMsg, langMsg] ∧
    dictLookup "html"
      (analyze_html fsHtmlEmptyDoc soupNone "index.html" initState).2.file_analysis =
      some (FileMetrics.htmlM "index.html" 0 0) := by
  constructor
  · rfl
  · rfl

/-- C6 as amended: for every successfully analyzed markup file, the
`issues_count` metric equals the number of entries of the accumulated
`compatibility_issues` list that contain the file path as a substring (not the
number of findings attributed to the file). -/
theorem c6_issues_count :
    ∀ (fs : FS) (soup : Soup) (p content : String) (st : State),
      fs p = some content →
      dictLookup "html" (analyze_html fs soup p st).2.file_analysis =
        some (FileMetrics.htmlM p content.utf8ByteSize
          (countContaining p ((analyze_html fs soup p st).2.compatibility_issues))) := by
  intro fs soup p content st h
  simp [analyze_html, h, dictLookup_dictInsert_self]

/-- Witness for C6 (amended): instantiated on the empty-document file system. -/
theorem c6_issues_count_witness :
    dictLookup "html"
      (analyze_html fsHtmlEmptyDoc soupNone "index.html" initState).2.file_analysis =
      some (FileMetrics.htmlM "index.html" ("" : String).utf8ByteSize
        (countContaining "index.html"
          ((analyze_html fsHtmlEmptyDoc soupNone "index.html" initState).2.compatibility_issues))) :=
  c6_issues_count fsHtmlEmptyDoc soupNone "index.html" "" initState rfl

/-! Section: Claim C7 -/

/-- C7: the full analysis is deterministic — two file systems providing
byte-identical texts for the six artifact paths the run driver reads produce
equal `Report` values, finding lists and ordering included.  Each analyzer is
a pure function of the artifact text, the filename and the prior state. -/
theorem c7_full_analysis_deterministic :
    ∀ (fs1 fs2 : FS) (soup : Soup),
      fs1 "index.html" = fs2 "index.html" →
      fs1 "enhanced_index.html" = fs2 "enhanced_index.html" →
      fs1 "styles.css" = fs2 "styles.css" →
      fs1 "enhanced_styles.css" = fs2 "enhanced_styles.css" →
      fs1 "script.js" = fs2 "script.js" →
      fs1 "enhanced_script.js" = fs2 "enhanced_script.js" →
      full_report fs1 soup = full_report fs2 soup := by
  intro fs1 fs2 soup h1 h2 h3 h4 h5 h6
  simp only [full_report, run_full_analysis]
  rw [analyze_html_congr fs1 fs2 soup _ _ h1, analyze_html_congr fs1 fs2 soup _ _ h2,
    analyze_css_congr fs1 fs2 _ _ h3, analyze_css_congr fs1 fs2 _ _ h4,
    analyze_js_congr fs1 fs2 _ _ h5, analyze_js_congr fs1 fs2 _ _ h6]

/-- Witness for C7: two file systems that agree (as `none`) on all six
artifact paths but differ on an unread path give the same report. -/
theorem c7_full_analysis_deterministic_witness :
    full_report fsEmpty soupNone = full_report fsOtherFile soupNone :=
  c7_full_analysis_deterministic fsEmpty fsOtherFile soupNone
    (by decide) (by decide) (by decide) (by decide) (by decide) (by decide)

/-! Section: Claim C10 -/

/-- C10: building the report never modifies the accumulated analysis state —
the call returns the state unchanged, every findings list and every metrics
entry is intact, and calling it again on the returned state yields an equal
`Report`. -/
theorem c10_report_leaves_state :
    ∀ st : State,
      (generate_report_call st).2 = st ∧
      (generate_report_call st).2.compatibility_issues = st.compatibility_issues ∧
      (generate_report_call st).2.performance_concerns = st.performance_concerns ∧
      (generate_report_call st).2.recommendations = st.recommendations ∧
      (generate_report_call st).2.responsive_design = st.responsive_design ∧
      (generate_report_call st).2.file_analysis = st.file_analysis ∧
      (generate_report_call (generate_report_call st).2).1 = (generate_report_call st).1 :=
  fun _ => ⟨rfl, rfl, rfl, rfl, rfl, rfl, rfl⟩

/-! Section: Claim C3 -/

/-- C3: for every readable stylesheet text, the style analyzer records
`fixed_units` as the number of digit-run-then-`px` tokens and
`responsive_units` as the number of digit-run-then-`em`/`rem`/`%`/`vh`/`vw`
tokens, records both regardless of their comparison, and appends the
"favor relative units" recommendation exactly when the pixel count exceeds
the relative count; on `"10px 20px 1em"` the counts are 2 and 1. -/
theorem c3_unit_metrics :
    (∀ (fs : FS) (p content : String) (st : State),
        fs p = some content →
        (analyze_css fs p st).2.responsive_design.fixed_units =
          some (fixedUnitsOf content) ∧
        (analyze_css fs p st).2.responsive_design.responsive_units =
          some (responsiveUnitsOf content) ∧
        (analyze_css fs p st).2.recommendations =
          st.recommendations ++ cssRecs content ∧
        (unitsMsg ∈ cssRecs content ↔
          fixedUnitsOf content > responsiveUnitsOf content)) ∧
    fixedUnitsOf cssSample = 2 ∧ responsiveUnitsOf cssSample = 1 := by
  refine ⟨?_, by decide, by decide⟩
  intro fs p content st h
  refine ⟨?_, ?_, ?_, ?_⟩
  · simp [analyze_css, h]
  · simp [analyze_css, h]
  · simp [analyze_css, h]
  · simp only [cssRecs, List.mem_append, mem_if_singleton, mem_if_nil_singleton]
    simp [show unitsMsg ≠ flexMsg by decide, show unitsMsg ≠ transformsMsg by decide,
      show unitsMsg ≠ willChangeMsg by decide]

/-- Witness for C3: instantiated on a file system serving `"10px 20px 1em"`
as `styles.css`. -/
theorem c3_unit_metrics_witness :
    (analyze_css fsCssSample "styles.css" initState).2.responsive_design.fixed_units =
      some (fixedUnitsOf cssSample) ∧
    (analyze_css fsCssSample "styles.css" initState).2.responsive_design.responsive_units =
      some (responsiveUnitsOf cssSample) ∧
    (analyze_css fsCssSample "styles.css" initState).2.recommendations =
      initState.recommendations ++ cssRecs cssSample ∧
    (unitsMsg ∈ cssRecs cssSample ↔
      fixedUnitsOf cssSample > responsiveUnitsOf cssSample) :=
  c3_unit_metrics.1 fsCssSample "styles.css" cssSample initState (by decide)

/-! Section: Claim C4 -/

/-- C4: for every readable markup text, the markup analyzer appends the
doctype `CompatibilityIssue` exactly once when the stripped text does not
begin with the case-sensitive `<!DOCTYPE html>` token, and not at all when it
does. -/
theorem c4_doctype_issue :
    ∀ (fs : FS) (soup : Soup) (p content : String) (st : State),
      fs p = some content →
      (analyze_html fs soup p st).2.compatibility_issues =
        st.compatibility_issues ++ htmlIssues content ∧
      List.count doctypeMsg (htmlIssues content) =
        (if beginsWith "<!DOCTYPE html>".toList (pyStrip content.toList) then 0 else 1) := by
  intro fs soup p content st h
  constructor
  · simp [analyze_html, h]
  · simp only [htmlIssues]
    rw [List.count_append, List.count_append, List.count_append]
    rw [count_if_nil_singleton (by decide), count_if_nil_self,
      count_if_nil_singleton (by decide), count_if_singleton_nil (by decide)]
    omega

/-- Witness for C4: instantiated on a document without a doctype, where
exactly one doctype issue is counted. -/
theorem c4_doctype_issue_witness :
    (analyze_html fsHtmlNoDoctype soupNone "index.html" initState).2.compatibility_issues =
      initState.compatibility_issues ++ htmlIssues htmlNoDoctype ∧
    List.count doctypeMsg (htmlIssues htmlNoDoctype) =
      (if beginsWith "<!DOCTYPE html>".toList (pyStrip htmlNoDoctype.toList) then 0 else 1) :=
  c4_doctype_issue fsHtmlNoDoctype soupNone "index.html" htmlNoDoctype initState (by decide)

/-! Section: Claim C5 -/

/-- C5 counterexample: in the script `"if(touchmove)"` the touch-events
pattern appears and a conditional guard referencing that same pattern (its
`touchmove` alternative) appears, yet the analyzer still emits the
Touch Events recommendation — because the source checks only the first
alternative `touchstart` when looking for a guard.  This refutes the claim's
"exactly when ... no conditional guard referencing that same pattern
appears". -/
theorem c5_first_alternative_counterexample :
    touch_used jsTouch = true ∧
    spec_touch_guard jsTouch = true ∧
    touch_guard jsTouch = false ∧
    touchMsg ∈ (analyze_js fsJsTouch "script.js" initState).2.recommendations :=
  ⟨by decide, by decide, by decide, by decide⟩

/-- C5 as amended: a capability recommendation is emitted exactly when the
capability's signature pattern appears and no conditional guard referencing
the FIRST ALTERNATIVE of that pattern appears (for the 2D-context pattern,
which has a single alternative, this coincides with the claim). -/
theorem c5_capability_recommendations :
    ∀ (fs : FS) (p content : String) (st : State),
      fs p = some content →
      (analyze_js fs p st).2.recommendations = st.recommendations ++ jsRecs content ∧
      (gumMsg ∈ jsRecs content ↔
        (getUserMedia_used content = true ∧ ¬getUserMedia_guard content = true)) ∧
      (canvasMsg ∈ jsRecs content ↔
        (canvas_used content = true ∧ ¬canvas_guard content = true)) ∧
      (touchMsg ∈ jsRecs content ↔
        (touch_used content = true ∧ ¬touch_guard content = true)) ∧
      (orientMsg ∈ jsRecs content ↔
        (orientation_used content = true ∧ ¬orientation_guard content = true)) := by
  intro fs p content st h
  refine ⟨by simp [analyze_js, h], ?_, ?_, ?_, ?_⟩ <;>
  · simp only [jsRecs, List.mem_append, mem_if_singleton, mem_if_nil_singleton]
    simp [show gumMsg ≠ canvasMsg by decide, show gumMsg ≠ touchMsg by decide,
      show gumMsg ≠ orientMsg by decide, show gumMsg ≠ polyfillMsg by decide,
      show canvasMsg ≠ gumMsg by decide, show canvasMsg ≠ touchMsg by decide,
      show canvasMsg ≠ orientMsg by decide, show canvasMsg ≠ polyfillMsg by decide,
      show touchMsg ≠ gumMsg by decide, show touchMsg ≠ canvasMsg by decide,
      show touchMsg ≠ orientMsg by decide, show touchMsg ≠ polyfillMsg by decide,
      show orientMsg ≠ gumMsg by decide, show orientMsg ≠ canvasMsg by decide,
      show orientMsg ≠ touchMsg by decide, show orientMsg ≠ polyfillMsg by decide,
      Bool.and_eq_true, Bool.not_eq_true', Bool.not_eq_true]

/-- Witness for C5 (amended): instantiated on the `"if(touchmove)"` script. -/
theorem c5_capability_recommendations_witness :
    (analyze_js fsJsTouch "script.js" initState).2.recommendations =
      initState.recommendations ++ jsRecs jsTouch ∧
    (gumMsg ∈ jsRecs jsTouch ↔
      (getUserMedia_used jsTouch = true ∧ ¬getUserMedia_guard jsTouch = true)) ∧
    (canvasMsg ∈ jsRecs jsTouch ↔
      (canvas_used jsTouch = true ∧ ¬canvas_guard jsTouch = true)) ∧
    (touchMsg ∈ jsRecs jsTouch ↔
      (touch_used jsTouch = true ∧ ¬touch_guard jsTouch = true)) ∧
    (orientMsg ∈ jsRecs jsTouch ↔
      (orientation_used jsTouch = true ∧ ¬orientation_guard jsTouch = true)) :=
  c5_capability_recommendations fsJsTouch "script.js" jsTouch initState (by decide)

/-! Section: Claim C8 -/

theorem analyze_html_fa (fs : FS) (soup : Soup) (p : String) (st : State) :
    (analyze_html fs soup p st).2.file_analysis = st.file_analysis ∨
    ∃ m, (analyze_html fs soup p st).2.file_analysis =
      dictInsert "html" m st.file_analysis := by
  unfold analyze_html
  cases h : fs p with
  | none => exact Or.inl rfl
  | some content => exact Or.inr ⟨_, rfl⟩

theorem analyze_css_fa (fs : FS) (p : String) (st : State) :
    (analyze_css fs p st).2.file_analysis = st.file_analysis ∨
    ∃ m, (analyze_css fs p st).2.file_analysis =
      dictInsert "css" m st.file_analysis := by
  unfold analyze_css
  cases h : fs p with
  | none => exact Or.inl rfl
  | some content => exact Or.inr ⟨_, rfl⟩

theorem analyze_js_fa (fs : FS) (p : String) (st : State) :
    (analyze_js fs p st).2.file_analysis = st.file_analysis ∨
    ∃ m, (analyze_js fs p st).2.file_analysis =
      dictInsert "js" m st.file_analysis := by
  unfold analyze_js
  cases h : fs p with
  | none => exact Or.inl rfl
  | some content => exact Or.inr ⟨_, rfl⟩

theorem goodFA_runCall (fs : FS) (soup : Soup) (st : State) (c : Call)
    (h : goodFA st.file_analysis) : goodFA (runCall fs soup st c).file_analysis := by
  cases c with
  | html p =>
    rcases analyze_html_fa fs soup p st with heq | ⟨m, heq⟩
    · show goodFA (analyze_html fs soup p st).2.file_analysis
      rw [heq]; exact h
    · show goodFA (analyze_html fs soup p st).2.file_analysis
      rw [heq]; exact goodFA_dictInsert (Or.inl rfl) m h
  | css p =>
    rcases analyze_css_fa fs p st with heq | ⟨m, heq⟩
    · show goodFA (analyze_css fs p st).2.file_analysis
      rw [heq]; exact h
    · show goodFA (analyze_css fs p st).2.file_analysis
      rw [heq]; exact goodFA_dictInsert (Or.inr (Or.inl rfl)) m h
  | js p =>
    rcases analyze_js_fa fs p st with heq | ⟨m, heq⟩
    · show goodFA (analyze_js fs p st).2.file_analysis
      rw [heq]; exact h
    · show goodFA (analyze_js fs p st).2.file_analysis
      rw [heq]; exact goodFA_dictInsert (Or.inr (Or.inr rfl)) m h

theorem goodFA_runCalls (fs : FS) (soup : Soup) :
    ∀ (calls : List Call) (st : State), goodFA st.file_analysis →
      goodFA (runCalls fs soup calls st).file_analysis := by
  intro calls
  induction calls with
  | nil => intro st h; exact h
  | cons c cs ih => intro st h; exact ih _ (goodFA_runCall fs soup st c h)

/-- C8: `file_analysis` is keyed by artifact kind only, so after any sequence
of analyzer invocations from a fresh state it holds at most three entries and
`summary.files_analyzed` never exceeds 3; analyzing a second markup file
overwrites the `html` entry with the second file's metrics instead of adding
an entry. -/
theorem c8_file_analysis_bounded :
    (∀ (fs : FS) (soup : Soup) (calls : List Call),
        (runCalls fs soup calls initState).file_analysis.length ≤ 3 ∧
        (generate_compatibility_report
            (runCalls fs soup calls initState)).summary.files_analyzed ≤ 3) ∧
    (∀ (fs : FS) (soup : Soup) (p1 p2 c1 c2 : String) (st : State),
        fs p1 = some c1 → fs p2 = some c2 →
        dictLookup "html"
            (analyze_html fs soup p2 (analyze_html fs soup p1 st).2).2.file_analysis =
          some (FileMetrics.htmlM p2 c2.utf8ByteSize
            (countContaining p2
              (analyze_html fs soup p2
                (analyze_html fs soup p1 st).2).2.compatibility_issues)) ∧
        (analyze_html fs soup p2 (analyze_html fs soup p1 st).2).2.file_analysis.length =
          (analyze_html fs soup p1 st).2.file_analysis.length) := by
  constructor
  · intro fs soup calls
    have hg : goodFA (runCalls fs soup calls initState).file_analysis :=
      goodFA_runCalls fs soup calls initState
        ⟨by simp [initState, faKeys], by simp [initState, faKeys]⟩
    have hlen := goodFA_length hg
    exact ⟨hlen, by simpa [generate_compatibility_report] using hlen⟩
  · intro fs soup p1 p2 c1 c2 st h1 h2
    have hfa1 : (analyze_html fs soup p1 st).2.file_analysis =
        dictInsert "html"
          (FileMetrics.htmlM p1 c1.utf8ByteSize
            (countContaining p1 (st.compatibility_issues ++ htmlIssues c1)))
          st.file_analysis := by
      simp [analyze_html, h1]
    have hmem : "html" ∈ faKeys (analyze_html fs soup p1 st).2.file_analysis := by
      rw [hfa1]
      exact mem_faKeys_dictInsert.mpr (Or.inl rfl)
    have hfa2 : (analyze_html fs soup p2 (analyze_html fs soup p1 st).2).2.file_analysis =
        dictInsert "html"
          (FileMetrics.htmlM p2 c2.utf8ByteSize
            (countContaining p2
              ((analyze_html fs soup p1 st).2.compatibility_issues ++ htmlIssues c2)))
          (analyze_html fs soup p1 st).2.file_analysis := by
      simp [analyze_html, h2]
    constructor
    · rw [hfa2, dictLookup_dictInsert_self]
      have hiss : (analyze_html fs soup p2 (analyze_html fs soup p1 st).2).2.compatibility_issues =
          (analyze_html fs soup p1 st).2.compatibility_issues ++ htmlIssues c2 := by
        simp [analyze_html, h2]
      rw [hiss]
    · rw [hfa2]
      exact dictInsert_length_of_mem hmem

/-- Witness for C8: two markup files analyzed in sequence — the `html` entry
holds the second file's metrics and the dictionary does not grow. -/
theorem c8_file_analysis_bounded_witness :
    dictLookup "html"
        (analyze_html fsTwoHtml soupNone "b.html"
          (analyze_html fsTwoHtml soupNone "a.html" initState).2).2.file_analysis =
      some (FileMetrics.htmlM "b.html" ("x" : String).utf8ByteSize
        (countContaining "b.html"
          (analyze_html fsTwoHtml soupNone "b.html"
            (analyze_html fsTwoHtml soupNone "a.html" initState).2).2.compatibility_issues)) ∧
    (analyze_html fsTwoHtml soupNone "b.html"
        (analyze_html fsTwoHtml soupNone "a.html" initState).2).2.file_analysis.length =
      (analyze_html fsTwoHtml soupNone "a.html" initState).2.file_analysis.length :=
  c8_file_analysis_bounded.2 fsTwoHtml soupNone "a.html" "b.html" "" "x" initState
    (by decide) (by decide)

/-! Section: Claim C9 -/

/-- C9: the `has_feature_detection` metric is the literal substring test
`"if (navigator.mediaDevices" in js_content`, which is stricter than the
whitespace-tolerant regex guard used for the MediaDevices issue: whenever the
literal occurs the regex matches, and on `"if( navigator.mediaDevices )"` the
regex guard matches (so no MediaDevices issue is emitted) while the metric is
reported `false`. -/
theorem c9_feature_detection_metric :
    (∀ (fs : FS) (p content : String) (st : State),
        fs p = some content →
        dictLookup "js" (analyze_js fs p st).2.file_analysis =
          some (FileMetrics.jsM p content.utf8ByteSize
            (pyIn "if (navigator.mediaDevices" content)
            (pyIn "try" content && pyIn "catch" content)
            (pyIn "requestAnimationFrame" content))) ∧
    (∀ content : String,
        pyIn "if (navigator.mediaDevices" content = true → md_guard content = true) ∧
    (md_used jsSpacedGuard = true ∧
     md_guard jsSpacedGuard = true ∧
     pyIn "if (navigator.mediaDevices" jsSpacedGuard = false ∧
     mdMsg ∉ (analyze_js fsJsSpaced "script.js" initState).2.compatibility_issues) := by
  refine ⟨?_, ?_, by decide, by decide, by decide, by decide⟩
  · intro fs p content st h
    simp [analyze_js, h, dictLookup_dictInsert_self]
  · intro content h
    unfold pyIn containsSub at h
    rw [searchAt_iff] at h
    obtain ⟨n, hn⟩ := h
    unfold md_guard
    rw [searchAt_iff]
    refine ⟨n, ?_⟩
    have hdec : "if (navigator.mediaDevices".toList =
        "if".toList ++ (' ' :: '(' :: "navigator.mediaDevices".toList) := by decide
    rw [hdec, beginsWith_append, Bool.and_eq_true] at hn
    obtain ⟨h1, h2⟩ := hn
    obtain ⟨t2, ht2, h3⟩ := beginsWith_cons h2
    obtain ⟨t3, ht3, h4⟩ := beginsWith_cons h3
    have hnav : "navigator.mediaDevices".toList =
        'n' :: "avigator.mediaDevices".toList := by decide
    rw [hnav] at h4
    obtain ⟨t4, ht4, h5⟩ := beginsWith_cons h4
    have hlit : lit "if".toList (content.toList.drop n) =
        some ((content.toList.drop n).drop ("if".toList).length) := by
      unfold lit
      rw [h1]
      simp
    have hskip1 : skipWs (' ' :: '(' :: t3) = '(' :: t3 := by
      have hw1 : isPyWs ' ' = true := by decide
      have hw2 : isPyWs '(' = false := by decide
      simp [skipWs, List.dropWhile_cons, hw1, hw2]
    have hskip2 : skipWs t3 = t3 := by
      rw [ht4]
      have hw3 : isPyWs 'n' = false := by decide
      simp [skipWs, List.dropWhile_cons, hw3]
    unfold mdGuardAt
    rw [hlit, ht2, ht3]
    simp only [hskip1, hskip2]
    rw [hnav, ht4]
    simp only [beginsWith, Bool.and_eq_true, beq_self_eq_true, true_and]
    exact h5

/-- Witness for C9: the metric equation instantiated on the spaced-guard
script file system, and the strictness implication instantiated on a script
that does contain the literal `if (navigator.mediaDevices`. -/
theorem c9_feature_detection_metric_witness :
    dictLookup "js" (analyze_js fsJsSpaced "script.js" initState).2.file_analysis =
      some (FileMetrics.jsM "script.js" jsSpacedGuard.utf8ByteSize
        (pyIn "if (navigator.mediaDevices" jsSpacedGuard)
        (pyIn "try" jsSpacedGuard && pyIn "catch" jsSpacedGuard)
        (pyIn "requestAnimationFrame" jsSpacedGuard)) ∧
    md_guard "if (navigator.mediaDevices) x" = true :=
  ⟨c9_feature_detection_metric.1 fsJsSpaced "script.js" jsSpacedGuard initState (by decide),
   c9_feature_detection_metric.2.1 "if (navigator.mediaDevices) x" (by decide)⟩

end BrowserCompat
